import Mathlib

/-!
Verification of the line-layout core of `cosmic-text` (`src/layout.rs`).

Rust `f32` values are embedded as exact rationals `ℚ`; the claims under
study concern the structure of the computations (which fields are read,
which formula is applied, where truncation happens), not floating-point
rounding error.  Machine integers (`u16`, `u8`, `usize`, `i32`) are
embedded as `Nat`/`ℤ`.  Opaque identifier types (`fontdb::ID`,
`CacheKeyFlags`, `Color`, `unicode_bidi::Level`) are embedded as `Nat`.
-/

/-- Opaque font identifier (`fontdb::ID`). -/
abbrev FontID : Type := Nat

/-- `CacheKeyFlags` bitflags (`u32`). -/
abbrev CacheKeyFlags : Type := Nat

/-- `Color` (`u32` RGBA). -/
abbrev Color : Type := Nat

/-- `unicode_bidi::Level` (`u8`). -/
abbrev Level : Type := Nat

/-- Truncation toward zero of a rational, as an integer
(the integer part that Rust `f32 as i32` / `f32::trunc` produce). -/
def truncInt (x : ℚ) : ℤ := if 0 ≤ x then ⌊x⌋ else ⌈x⌉

/-- `math::truncf`: truncation toward zero, staying in the number type. -/
def truncf (x : ℚ) : ℚ := (truncInt x : ℚ)

/-- A laid out glyph (`LayoutGlyph` in `src/layout.rs`). -/
structure LayoutGlyph where
  /-- Start index of cluster in original line -/
  start : Nat
  /-- End index of cluster in original line -/
  «end» : Nat
  /-- Font size of the glyph -/
  font_size : ℚ
  /-- Line height of the glyph, will override buffer setting -/
  line_height_opt : Option ℚ
  /-- Font id of the glyph -/
  font_id : FontID
  /-- Glyph id of the glyph (`u16`) -/
  glyph_id : Nat
  /-- X offset of hitbox -/
  x : ℚ
  /-- Y offset of hitbox -/
  y : ℚ
  /-- Width of hitbox -/
  w : ℚ
  /-- Unicode BiDi embedding level -/
  level : Level
  /-- X offset in line -/
  x_offset : ℚ
  /-- Y offset in line -/
  y_offset : ℚ
  /-- Optional color override -/
  color_opt : Option Color
  /-- Metadata from `Attrs` -/
  metadata : Nat
  /-- Cache key flags -/
  cache_key_flags : CacheKeyFlags
deriving DecidableEq, Repr

/-- Modelled from the spec: the sub-pixel quantization used by cache-key
derivation ("quantizes the sub-pixel fractional part of `px`/`py` into a
small number of buckets").  `CacheKey::new` is not under `src/`; we bucket
the fractional part left over after truncation into quarter-pixel bins. -/
def subpixelBin (x : ℚ) : ℤ := ⌊(x - truncf x) * 4⌋

/-- Modelled from the spec: `CacheKey` — "a value uniquely identifying this
glyph outline at this font, size, sub-pixel position, and rendering-flag
combination", built from "font id, glyph id, an integer-rounded font size,
and the cache-key flags" plus the quantized sub-pixel bins.  The `CacheKey`
type itself is not under `src/`. -/
structure CacheKey where
  font_id : FontID
  glyph_id : Nat
  /-- integer-rounded font size -/
  font_size_key : ℤ
  /-- quantized sub-pixel bucket of the X position -/
  x_bin : ℤ
  /-- quantized sub-pixel bucket of the Y position -/
  y_bin : ℤ
  flags : CacheKeyFlags
deriving DecidableEq, Repr

/-- Modelled from the spec: `CacheKey::new` — not under `src/`.  Per spec
4.6, it combines font id, glyph id, an integer-rounded font size, the
quantized sub-pixel fractional parts of the position and the cache-key
flags into the key, and returns the integer pixel components separately,
"exact (not quantized)" (spec 8: the integer component is the truncation
of the position). -/
def CacheKey.new (font_id : FontID) (glyph_id : Nat) (font_size : ℚ)
    (pos : ℚ × ℚ) (flags : CacheKeyFlags) : CacheKey × ℤ × ℤ :=
  (⟨font_id, glyph_id, ⌊font_size + 1/2⌋, subpixelBin pos.1, subpixelBin pos.2, flags⟩,
    truncInt pos.1, truncInt pos.2)

/-- `PhysicalGlyph` in `src/layout.rs`. -/
structure PhysicalGlyph where
  /-- Cache key -/
  cache_key : CacheKey
  /-- Integer component of X offset in line -/
  x : ℤ
  /-- Integer component of Y offset in line -/
  y : ℤ
deriving DecidableEq, Repr

/-- `LayoutGlyph::physical` from `src/layout.rs` lines 70-86. -/
def LayoutGlyph.physical (g : LayoutGlyph) (offset : ℚ × ℚ) (scale : ℚ) :
    PhysicalGlyph :=
  let x_offset := g.font_size * g.x_offset
  let y_offset := g.font_size * g.y_offset
  let r := CacheKey.new g.font_id g.glyph_id (g.font_size * scale)
    ((g.x + x_offset) * scale + offset.1,
      truncf ((g.y - y_offset) * scale + offset.2))
    g.cache_key_flags
  { cache_key := r.1, x := r.2.1, y := r.2.2 }

/-- State-passing view of the `&self` method `physical`: the call returns
its result together with the receiver as it stands after the call.  The
receiver is borrowed immutably, so it passes through unchanged. -/
def LayoutGlyph.physicalRun (g : LayoutGlyph) (offset : ℚ × ℚ) (scale : ℚ) :
    PhysicalGlyph × LayoutGlyph :=
  (g.physical offset scale, g)

/-- Wrapping mode (`Wrap` in `src/layout.rs`). -/
inductive Wrap where
  /-- No wrapping -/
  | None
  /-- Wraps at a glyph level -/
  | Glyph
  /-- Wraps at the word level -/
  | Word
  /-- Wraps at the word level, or fallback to glyph level -/
  | WordOrGlyph
deriving DecidableEq, Repr

/-- `impl Display for Wrap`: the string written to the formatter. -/
def Wrap.fmt : Wrap → String
  | Wrap.None => "No Wrap"
  | Wrap.Word => "Word Wrap"
  | Wrap.WordOrGlyph => "Word Wrap or Character"
  | Wrap.Glyph => "Character"

/-- The maximum allowed number of lines before ellipsizing
(`HeightLimit` in `src/layout.rs`); `Lines` carries a `u8`. -/
inductive HeightLimit where
  /-- Default is a single line -/
  | Default
  /-- Number of maximum lines allowed -/
  | Lines (n : Nat)
  /-- Limited to the current buffer height -/
  | Height
deriving DecidableEq, Repr

/-- Ellipsize mode (`Ellipsize` in `src/layout.rs`). -/
inductive Ellipsize where
  /-- No Ellipsize -/
  | None
  /-- Ellipsis at the start -/
  | Start
  /-- Ellipsis in the middle -/
  | Middle
  /-- Ellipsis at the end -/
  | End (limit : HeightLimit)
deriving DecidableEq, Repr

/-- Align or justify (`Align` in `src/layout.rs`). -/
inductive Align where
  | Left
  | Right
  | Center
  | Justified
  | End
deriving DecidableEq, Repr

/-- `impl Display for Align`: the string written to the formatter. -/
def Align.fmt : Align → String
  | Align.Left => "Left"
  | Align.Right => "Right"
  | Align.Center => "Center"
  | Align.Justified => "Justified"
  | Align.End => "End"

/-- Modelled from the spec: the `ShapedGlyph` input to the Line Breaker
(spec 3): cluster span, font id, glyph id, advance width `w`, font size,
optional line-height override, bidi level, optional color, metadata,
cache-key flags; `word_boundary` records "word-boundary clusters
(boundaries provided by cluster metadata/whitespace)" of spec 4.1.
The shaping stage is not under `src/`. -/
structure ShapedGlyph where
  start : Nat
  «end» : Nat
  font_id : FontID
  glyph_id : Nat
  w : ℚ
  font_size : ℚ
  line_height_opt : Option ℚ
  level : Level
  color_opt : Option Color
  metadata : Nat
  cache_key_flags : CacheKeyFlags
  word_boundary : Bool
deriving DecidableEq, Repr

/-- Turn a list of line lengths (in glyphs) into index spans
`(start, end)` into the input sequence. -/
def lensToSpans (lens : List Nat) : List (Nat × Nat) :=
  (lens.foldl (fun (acc : List (Nat × Nat) × Nat) n =>
    ((acc.2, acc.2 + n) :: acc.1, acc.2 + n)) ([], 0)).1.reverse

/-- Modelled from the spec: `Wrap::Glyph` breaking (spec 4.1) — single
forward scan; "break as late as possible such that accumulated advance ≤
max width; if a single glyph exceeds max width alone, it is placed on its
own line".  `n` is the glyph count of the current line, `acc` its
accumulated advance; returns the glyph counts of the produced lines.
The Line Breaker is not under `src/`. -/
def glyphWrapGo (maxW : ℚ) : List ShapedGlyph → Nat → ℚ → List Nat
  | [], n, _ => [n]
  | g :: rest, n, acc =>
      if n = 0 ∨ acc + g.w ≤ maxW then
        glyphWrapGo maxW rest (n + 1) (acc + g.w)
      else
        n :: glyphWrapGo maxW rest 1 g.w

/-- Modelled from the spec: grouping of shaped glyphs into words; a word
is a maximal run ending at (and including) a word-boundary glyph. -/
def splitWords : List ShapedGlyph → List (List ShapedGlyph)
  | [] => []
  | g :: rest =>
      if g.word_boundary then
        [g] :: splitWords rest
      else
        match splitWords rest with
        | [] => [[g]]
        | wd :: wds => (g :: wd) :: wds

/-- Total advance of a word. -/
def wordWidth (wd : List ShapedGlyph) : ℚ := (wd.map (fun g => g.w)).sum

/-- Modelled from the spec: `Wrap::Word` breaking (spec 4.1) — "break
only at word-boundary clusters; if no boundary occurs before max width is
exceeded, the whole word overflows the line (no fallback)".  Operates on
the word list; `n` and `acc` as in `glyphWrapGo`. -/
def wordWrapGo (maxW : ℚ) : List (List ShapedGlyph) → Nat → ℚ → List Nat
  | [], n, _ => [n]
  | wd :: rest, n, acc =>
      if n = 0 ∨ acc + wordWidth wd ≤ maxW then
        wordWrapGo maxW rest (n + wd.length) (acc + wordWidth wd)
      else
        n :: wordWrapGo maxW rest wd.length (wordWidth wd)

/-- Modelled from the spec: `Wrap::WordOrGlyph` breaking (spec 4.1) — "as
Word, except when a single word cannot fit on an otherwise-empty line,
fall back to Glyph behavior for that word only". -/
def wordOrGlyphGo (maxW : ℚ) : List (List ShapedGlyph) → Nat → ℚ → List Nat
  | [], n, _ => [n]
  | wd :: rest, n, acc =>
      if n = 0 then
        if wordWidth wd ≤ maxW then
          wordOrGlyphGo maxW rest wd.length (wordWidth wd)
        else
          match rest with
          | [] => glyphWrapGo maxW wd 0 0
          | r :: rs => glyphWrapGo maxW wd 0 0 ++ wordOrGlyphGo maxW (r :: rs) 0 0
      else if acc + wordWidth wd ≤ maxW then
        wordOrGlyphGo maxW rest (n + wd.length) (acc + wordWidth wd)
      else if wordWidth wd ≤ maxW then
        n :: wordOrGlyphGo maxW rest wd.length (wordWidth wd)
      else
        n :: (match rest with
          | [] => glyphWrapGo maxW wd 0 0
          | r :: rs => glyphWrapGo maxW wd 0 0 ++ wordOrGlyphGo maxW (r :: rs) 0 0)

/-- Modelled from the spec: the Line Breaker contract (spec 4.1) — "given
an ordered sequence of ShapedGlyph (logical order, single paragraph) and a
maximum line width, produce an ordered sequence of line-spans (index
ranges into the glyph sequence)".  The Line Breaker is not under `src/`;
only the policy enum `Wrap` is. -/
def breakLines (wrap : Wrap) (maxW : ℚ) (gs : List ShapedGlyph) :
    List (Nat × Nat) :=
  match wrap with
  | Wrap.None => [(0, gs.length)]
  | Wrap.Glyph => lensToSpans (glyphWrapGo maxW gs 0 0)
  | Wrap.Word => lensToSpans (wordWrapGo maxW (splitWords gs) 0 0)
  | Wrap.WordOrGlyph => lensToSpans (wordOrGlyphGo maxW (splitWords gs) 0 0)

/-- A concrete glyph used to instantiate the hypothesis-bearing theorems. -/
def gA : LayoutGlyph :=
  { start := 0, «end» := 1, font_size := 16, line_height_opt := none,
    font_id := 5, glyph_id := 33, x := 5/2, y := -7/2, w := 10,
    level := 0, x_offset := 0, y_offset := 0, color_opt := none,
    metadata := 0, cache_key_flags := 0 }

/-- A second concrete glyph: agrees with `gA` on the eight fields that
`physical` reads, differs on the others. -/
def gB : LayoutGlyph :=
  { start := 3, «end» := 9, font_size := 16, line_height_opt := some 20,
    font_id := 5, glyph_id := 33, x := 5/2, y := -7/2, w := 99,
    level := 1, x_offset := 0, y_offset := 0, color_opt := some 7,
    metadata := 42, cache_key_flags := 0 }

theorem truncInt_intCast (n : ℤ) : truncInt (n : ℚ) = n := by
  unfold truncInt
  split <;> simp

theorem truncInt_truncf (x : ℚ) : truncInt (truncf x) = truncInt x := by
  unfold truncf
  exact truncInt_intCast (truncInt x)

theorem truncf_truncf (x : ℚ) : truncf (truncf x) = truncf x := by
  unfold truncf
  rw [truncInt_intCast]

theorem subpixelBin_truncf (x : ℚ) : subpixelBin (truncf x) = 0 := by
  unfold subpixelBin
  rw [truncf_truncf]
  simp

/-- Claim C1: for every glyph, render offset and scale, the sub-pixel
position handed to cache-key generation is
`px = (x + font_size * x_offset) * scale + offset.1` and
`py = truncf ((y - font_size * y_offset) * scale + offset.2)`: the scaled
x offset is added, the scaled y offset is subtracted, and truncation is
applied to the vertical coordinate only — the horizontal coordinate keeps
its sub-pixel fraction (visible in the cache key's x bin) while the
vertical fraction is always gone (the y bin is the zero bucket). -/
theorem physical_subpixel_position (g : LayoutGlyph) (ox oy s : ℚ) :
    g.physical (ox, oy) s =
      { cache_key := (CacheKey.new g.font_id g.glyph_id (g.font_size * s)
            ((g.x + g.font_size * g.x_offset) * s + ox,
             truncf ((g.y - g.font_size * g.y_offset) * s + oy))
            g.cache_key_flags).1,
        x := truncInt ((g.x + g.font_size * g.x_offset) * s + ox),
        y := truncInt ((g.y - g.font_size * g.y_offset) * s + oy) } ∧
    (g.physical (ox, oy) s).cache_key.x_bin
      = subpixelBin ((g.x + g.font_size * g.x_offset) * s + ox) ∧
    (g.physical (ox, oy) s).cache_key.y_bin = 0 := by
  refine ⟨?_, rfl, subpixelBin_truncf _⟩
  rw [← truncInt_truncf ((g.y - g.font_size * g.y_offset) * s + oy)]
  rfl

/-- Claim C2: `physical` is deterministic — two calls with identical
arguments return identical `PhysicalGlyph` values (equal cache key, equal
x, equal y); it is a pure function of its arguments, with no hidden
mutable state. -/
theorem physical_deterministic (g₁ g₂ : LayoutGlyph) (o₁ o₂ : ℚ × ℚ)
    (s₁ s₂ : ℚ) (hg : g₁ = g₂) (ho : o₁ = o₂) (hs : s₁ = s₂) :
    (g₁.physical o₁ s₁).cache_key = (g₂.physical o₂ s₂).cache_key ∧
    (g₁.physical o₁ s₁).x = (g₂.physical o₂ s₂).x ∧
    (g₁.physical o₁ s₁).y = (g₂.physical o₂ s₂).y := by
  subst hg
  subst ho
  subst hs
  exact ⟨rfl, rfl, rfl⟩

/-- Witness for C2 at the concrete glyph `gA`, offset `(0, 0)`, scale 1. -/
theorem physical_deterministic_witness :
    (gA.physical (0, 0) 1).cache_key = (gA.physical (0, 0) 1).cache_key ∧
    (gA.physical (0, 0) 1).x = (gA.physical (0, 0) 1).x ∧
    (gA.physical (0, 0) 1).y = (gA.physical (0, 0) 1).y :=
  physical_deterministic gA gA (0, 0) (0, 0) 1 1 rfl rfl rfl

/-- Claim C3: on a glyph with `x_offset = 0` and `y_offset = 0`, calling
`physical` with render offset `(0, 0)` and scale 1 returns integer
components `x = truncate (g.x)` and `y = truncate (g.y)`. -/
theorem physical_identity_transform (g : LayoutGlyph)
    (hx : g.x_offset = 0) (hy : g.y_offset = 0) :
    (g.physical (0, 0) 1).x = truncInt g.x ∧
    (g.physical (0, 0) 1).y = truncInt g.y := by
  simp only [LayoutGlyph.physical, CacheKey.new, hx, hy, mul_zero,
    add_zero, sub_zero, mul_one]
  exact ⟨trivial, truncInt_truncf g.y⟩

/-- Witness for C3: `gA` has zero offsets, `x = 5/2`, `y = -7/2`; the
physical components are the truncations `2` and `-3`. -/
theorem physical_identity_transform_witness :
    gA.x_offset = 0 ∧ gA.y_offset = 0 ∧
    ((gA.physical (0, 0) 1).x = truncInt gA.x ∧
     (gA.physical (0, 0) 1).y = truncInt gA.y) ∧
    truncInt gA.x = 2 ∧ truncInt gA.y = -3 :=
  ⟨rfl, rfl, physical_identity_transform gA rfl rfl,
    by norm_num [gA, truncInt], by norm_num [gA, truncInt, Int.ceil_neg]⟩

/-- Claim C4: `physical` does not mutate the `LayoutGlyph` it reads: in
the state-passing view of the `&self` call, every field of the receiver
after the call equals the corresponding field before it. -/
theorem physical_no_mutation (g : LayoutGlyph) (offset : ℚ × ℚ) (scale : ℚ) :
    (g.physicalRun offset scale).2.start = g.start ∧
    (g.physicalRun offset scale).2.«end» = g.«end» ∧
    (g.physicalRun offset scale).2.font_size = g.font_size ∧
    (g.physicalRun offset scale).2.line_height_opt = g.line_height_opt ∧
    (g.physicalRun offset scale).2.font_id = g.font_id ∧
    (g.physicalRun offset scale).2.glyph_id = g.glyph_id ∧
    (g.physicalRun offset scale).2.x = g.x ∧
    (g.physicalRun offset scale).2.y = g.y ∧
    (g.physicalRun offset scale).2.w = g.w ∧
    (g.physicalRun offset scale).2.level = g.level ∧
    (g.physicalRun offset scale).2.x_offset = g.x_offset ∧
    (g.physicalRun offset scale).2.y_offset = g.y_offset ∧
    (g.physicalRun offset scale).2.color_opt = g.color_opt ∧
    (g.physicalRun offset scale).2.metadata = g.metadata ∧
    (g.physicalRun offset scale).2.cache_key_flags = g.cache_key_flags :=
  ⟨rfl, rfl, rfl, rfl, rfl, rfl, rfl, rfl, rfl, rfl, rfl, rfl, rfl, rfl, rfl⟩

/-- Claim C5: the policy enums are exactly the closed variant sets the
spec lists — every `Wrap` is one of None/Glyph/Word/WordOrGlyph, every
`HeightLimit` one of Default/Lines n/Height, every `Ellipsize` one of
None/Start/Middle/End limit, and every `Align` one of
Left/Right/Center/Justified/End. -/
theorem policy_enums_closed :
    (∀ w : Wrap, w = Wrap.None ∨ w = Wrap.Glyph ∨ w = Wrap.Word ∨
      w = Wrap.WordOrGlyph) ∧
    (∀ h : HeightLimit, h = HeightLimit.Default ∨
      (∃ n, h = HeightLimit.Lines n) ∨ h = HeightLimit.Height) ∧
    (∀ e : Ellipsize, e = Ellipsize.None ∨ e = Ellipsize.Start ∨
      e = Ellipsize.Middle ∨ ∃ hl, e = Ellipsize.End hl) ∧
    (∀ a : Align, a = Align.Left ∨ a = Align.Right ∨ a = Align.Center ∨
      a = Align.Justified ∨ a = Align.End) := by
  refine ⟨fun w => ?_, fun h => ?_, fun e => ?_, fun a => ?_⟩
  · cases w
    · exact Or.inl rfl
    · exact Or.inr (Or.inl rfl)
    · exact Or.inr (Or.inr (Or.inl rfl))
    · exact Or.inr (Or.inr (Or.inr rfl))
  · cases h with
    | Default => exact Or.inl rfl
    | Lines n => exact Or.inr (Or.inl ⟨n, rfl⟩)
    | Height => exact Or.inr (Or.inr rfl)
  · cases e with
    | None => exact Or.inl rfl
    | Start => exact Or.inr (Or.inl rfl)
    | Middle => exact Or.inr (Or.inr (Or.inl rfl))
    | End hl => exact Or.inr (Or.inr (Or.inr ⟨hl, rfl⟩))
  · cases a
    · exact Or.inl rfl
    · exact Or.inr (Or.inl rfl)
    · exact Or.inr (Or.inr (Or.inl rfl))
    · exact Or.inr (Or.inr (Or.inr (Or.inl rfl)))
    · exact Or.inr (Or.inr (Or.inr (Or.inr rfl)))

/-- Claim C6: under `Wrap::None` the line breaker produces exactly one
line-span covering the entire input glyph sequence, for input of any
length and for any maximum width — in particular also when the
accumulated width exceeds the maximum width, so overflow is permitted
and no truncation occurs in the breaker. -/
theorem wrap_none_single_span (maxW : ℚ) (gs : List ShapedGlyph) :
    breakLines Wrap.None maxW gs = [(0, gs.length)] := rfl

/-- Claim C7: for every wrap mode, an empty input glyph sequence makes
the line breaker yield exactly one empty line-span. -/
theorem break_empty_single_empty_span (wrap : Wrap) (maxW : ℚ) :
    breakLines wrap maxW [] = [(0, 0)] := by
  cases wrap <;> rfl

/-- Claim C8: the font size used to build the cache key is the glyph's
font size multiplied by the render scale, not the unscaled font size; in
particular, calling `physical` on `gA` with scales 1 and 2 yields two
different cache keys for the same glyph. -/
theorem cache_key_font_size_scaled :
    (∀ (g : LayoutGlyph) (offset : ℚ × ℚ) (scale : ℚ),
      (g.physical offset scale).cache_key.font_size_key
        = ⌊g.font_size * scale + 1/2⌋) ∧
    (gA.physical (0, 0) 1).cache_key ≠ (gA.physical (0, 0) 2).cache_key := by
  refine ⟨fun g o s => rfl, fun h => ?_⟩
  have h2 := congrArg CacheKey.font_size_key h
  norm_num [LayoutGlyph.physical, CacheKey.new, gA] at h2

/-- Claim C9: the output of `physical` depends on the glyph only through
`font_id`, `glyph_id`, `font_size`, `x`, `y`, `x_offset`, `y_offset` and
`cache_key_flags`: two glyphs agreeing on those eight fields produce
identical `PhysicalGlyph` values for the same offset and scale. -/
theorem physical_depends_only_on_key_fields (g₁ g₂ : LayoutGlyph)
    (offset : ℚ × ℚ) (scale : ℚ)
    (h1 : g₁.font_id = g₂.font_id) (h2 : g₁.glyph_id = g₂.glyph_id)
    (h3 : g₁.font_size = g₂.font_size) (h4 : g₁.x = g₂.x)
    (h5 : g₁.y = g₂.y) (h6 : g₁.x_offset = g₂.x_offset)
    (h7 : g₁.y_offset = g₂.y_offset)
    (h8 : g₁.cache_key_flags = g₂.cache_key_flags) :
    g₁.physical offset scale = g₂.physical offset scale := by
  simp only [LayoutGlyph.physical, CacheKey.new, h1, h2, h3, h4, h5, h6,
    h7, h8]

/-- Witness for C9: `gA` and `gB` agree on the eight fields `physical`
reads and differ on `start`, `end`, `line_height_opt`, `w`, `level`,
`color_opt` and `metadata`; their physical projections coincide. -/
theorem physical_depends_only_on_key_fields_witness :
    (gA.font_id = gB.font_id ∧ gA.glyph_id = gB.glyph_id ∧
     gA.font_size = gB.font_size ∧ gA.x = gB.x ∧ gA.y = gB.y ∧
     gA.x_offset = gB.x_offset ∧ gA.y_offset = gB.y_offset ∧
     gA.cache_key_flags = gB.cache_key_flags) ∧
    gA.physical (0, 0) 1 = gB.physical (0, 0) 1 :=
  ⟨⟨rfl, rfl, rfl, rfl, rfl, rfl, rfl, rfl⟩,
    physical_depends_only_on_key_fields gA gB (0, 0) 1
      rfl rfl rfl rfl rfl rfl rfl rfl⟩

/-- Claim C10: the Display implementations are total functions over their
enums and produce exactly these strings: `Wrap::None` formats as
"No Wrap", `Wrap::Word` as "Word Wrap", `Wrap::WordOrGlyph` as
"Word Wrap or Character", `Wrap::Glyph` as "Character"; `Align` variants
format as "Left", "Right", "Center", "Justified", "End". -/
theorem display_fmt_strings :
    Wrap.fmt Wrap.None = "No Wrap" ∧
    Wrap.fmt Wrap.Word = "Word Wrap" ∧
    Wrap.fmt Wrap.WordOrGlyph = "Word Wrap or Character" ∧
    Wrap.fmt Wrap.Glyph = "Character" ∧
    Align.fmt Align.Left = "Left" ∧
    Align.fmt Align.Right = "Right" ∧
    Align.fmt Align.Center = "Center" ∧
    Align.fmt Align.Justified = "Justified" ∧
    Align.fmt Align.End = "End" :=
  ⟨rfl, rfl, rfl, rfl, rfl, rfl, rfl, rfl, rfl⟩
